import Mathlib

/-!
Shallow embedding of the `usaspending-mcp` server (`src/main.py`): the four
tool adapters (`recipient_autocomplete`, `recipient_list`, `spending_by_award`,
`recipient_children`) and the error normalizer `_raise_for_usaspending`.

Modelling conventions:
- A Python JSON value (the result of `resp.json()`, the entries of a request
  body or of query parameters) is a `JValue`.
- Python dicts built by literal-then-conditional-assignment are association
  lists `List (String × JValue)`; conditional assignment of a fresh key is
  `++ [(key, v)]`, which preserves insertion order and key uniqueness.
- An adapter returns `Except ToolError Request`: `.error e` means the adapter
  raised `ToolError e` before any network call (constructing the `.ok` value
  is the single point at which the HTTP request is issued in the source), so
  `.error` outcomes issue zero network requests by construction.
- `resp.raise_for_status()` (httpx) raises `HTTPStatusError` for every status
  outside 200..299 (including 1xx and 3xx: httpx raises "Informational
  response" / "Redirect response" errors for those classes).
- `resp.json()` is an external fallible parse: a `PyResponse` carries its
  outcome as `jsonResult : Option JValue` (`none` models a raised parse
  error), and `resp.text` as a total `text : String` (httpx decodes bytes
  with replacement, so text access does not raise; `or ""` in the source
  maps a falsy text to itself).
- Python `str.strip()` is `pyStrip` (drop leading and trailing whitespace
  characters; ASCII whitespace — no claim involves non-ASCII whitespace),
  and the slice `txt[:500]` is `pySlice txt 500` (first 500 characters).
-/

namespace USASpending

/-- Python `str.strip()`: remove leading and trailing whitespace. -/
def pyStrip (s : String) : String :=
  String.mk (((s.data.dropWhile Char.isWhitespace).reverse.dropWhile
    Char.isWhitespace).reverse)

/-- The Python slice `s[:n]`: the first `n` characters of `s`. -/
def pySlice (s : String) (n : Nat) : String :=
  String.mk (s.data.take n)

/-- A single apostrophe character, used when rendering Python string quoting
and in the literal error messages of the source. -/
def sq : String := String.singleton (Char.ofNat 39)

/-- Python/JSON values as they occur in request bodies and parsed responses. -/
inductive JValue where
  | null : JValue
  | bool (b : Bool) : JValue
  | num (n : Int) : JValue
  | str (s : String) : JValue
  | arr (xs : List JValue) : JValue
  | obj (kvs : List (String × JValue)) : JValue

/-- Python truthiness of a parsed JSON value (`if payload:` in the source):
`None`, `False`, `0`, `""`, `[]`, `{}` are falsy, everything else truthy. -/
def JValue.truthy : JValue → Bool
  | .null => false
  | .bool b => b
  | .num n => n != 0
  | .str s => s != ""
  | .arr xs => !xs.isEmpty
  | .obj kvs => !kvs.isEmpty

/-- Python `repr` of a string, as used when a str appears inside a rendered
container. Escape sequences are elided: no claim depends on them. -/
def pyReprStr (s : String) : String := sq ++ s ++ sq

mutual

/-- Python `repr` of a parsed JSON value, as produced by the f-string
interpolation of `payload` inside containers. -/
def pyRepr : JValue → String
  | .null => "None"
  | .bool true => "True"
  | .bool false => "False"
  | .num n => toString n
  | .str s => pyReprStr s
  | .arr xs => "[" ++ pyReprArr xs ++ "]"
  | .obj kvs => "\x7b" ++ pyReprObj kvs ++ "\x7d"

/-- Comma-separated `repr` of list elements. -/
def pyReprArr : List JValue → String
  | [] => ""
  | [x] => pyRepr x
  | x :: y :: xs => pyRepr x ++ ", " ++ pyReprArr (y :: xs)

/-- Comma-separated `repr` of dict entries. -/
def pyReprObj : List (String × JValue) → String
  | [] => ""
  | [(k, v)] => pyReprStr k ++ ": " ++ pyRepr v
  | (k, v) :: e :: kvs => pyReprStr k ++ ": " ++ pyRepr v ++ ", " ++ pyReprObj (e :: kvs)

end

/-- Python `str` of a parsed JSON value: the f-string `f" Response: 〔payload〕"`
renders a top-level str bare and everything else via `repr`. -/
def pyStr : JValue → String
  | .str s => s
  | v => pyRepr v

/-- The single error kind crossing the tool boundary (`fastmcp.exceptions.ToolError`). -/
structure ToolError where
  message : String
  deriving DecidableEq

/-- HTTP verb of an adapter request. -/
inductive Method where
  | get : Method
  | post : Method
  deriving DecidableEq

/-- The upstream HTTP request an adapter constructs: method, path, query
parameters (GET) and JSON body (POST). -/
structure Request where
  method : Method
  path : String
  params : List (String × JValue)
  body : List (String × JValue)

/-- The observable content of an `httpx.Response` as consumed by
`_raise_for_usaspending`: status code, originating request method and URL,
the outcome of `resp.json()` (`none` = the parse raised) and `resp.text`. -/
structure PyResponse where
  status : Nat
  method : String
  url : String
  jsonResult : Option JValue
  text : String

/-- The detail suffix computed inside the `except HTTPStatusError` handler:
JSON payload when the parse succeeds and the payload is truthy; on parse
failure, the stripped text truncated to 500 characters when non-empty;
otherwise empty. -/
def usaspendingDetail (r : PyResponse) : String :=
  match r.jsonResult with
  | some payload => if payload.truthy then " Response: " ++ pyStr payload else ""
  | none =>
    let txt := pyStrip r.text
    if txt = "" then "" else " Response: " ++ pySlice txt 500

/-- The message of the raised `ToolError`:
`f"USAspending API error 〔status〕 for 〔method〕 〔url〕.〔detail〕"`. -/
def usaspendingErrorMessage (r : PyResponse) : String :=
  "USAspending API error " ++ toString r.status ++ " for " ++ r.method ++ " "
    ++ r.url ++ "." ++ usaspendingDetail r

/-- `_raise_for_usaspending`: does nothing when `resp.raise_for_status()` does
not raise (status 200..299), otherwise raises a `ToolError` with the
normalized message. -/
def raise_for_usaspending (r : PyResponse) : Except ToolError Unit :=
  if 200 ≤ r.status ∧ r.status < 300 then .ok ()
  else .error ⟨usaspendingErrorMessage r⟩

/-- `recipient_autocomplete(search_text, limit=10, recipient_levels=None)`:
POST `/api/v2/autocomplete/recipient/`. -/
def recipient_autocomplete (search_text : String) (limit : Int)
    (recipient_levels : Option (List String)) : Except ToolError Request :=
  if search_text = "" ∨ pyStrip search_text = "" then
    .error ⟨"search_text is required and cannot be empty."⟩
  else if limit < 1 then
    .error ⟨"limit must be >= 1."⟩
  else if limit > 500 then
    .error ⟨"limit must be <= 500."⟩
  else
    let body := [("search_text", JValue.str search_text), ("limit", JValue.num limit)]
    let body := match recipient_levels with
      | some ls => body ++ [("recipient_levels", JValue.arr (ls.map JValue.str))]
      | none => body
    .ok { method := .post, path := "/api/v2/autocomplete/recipient/",
          params := [], body := body }

/-- The params dict literal of `recipient_list`: the two required fields. -/
def recipient_list_params0 (awarding_agency_id fiscal_year : Int) :
    List (String × JValue) :=
  [("awarding_agency_id", JValue.num awarding_agency_id),
   ("fiscal_year", JValue.num fiscal_year)]

/-- The `if limit is not None: if limit < 1: raise ...; params["limit"] = limit`
block shared (verbatim, up to the key and message) by `recipient_list` and
`spending_by_award` for `limit` and `page`. -/
def insertOptMin1 (key : String) (errMsg : String) (v : Option Int)
    (d : List (String × JValue)) : Except ToolError (List (String × JValue)) :=
  match v with
  | none => .ok d
  | some n => if n < 1 then .error ⟨errMsg⟩ else .ok (d ++ [(key, JValue.num n)])

/-- The `if x is not None: d[key] = x` pattern for an optional string field. -/
def insertOptStr (key : String) (v : Option String)
    (d : List (String × JValue)) : List (String × JValue) :=
  match v with
  | none => d
  | some s => d ++ [(key, JValue.str s)]

/-- The `if x is not None: d[key] = x` pattern for an optional integer field
without validation. -/
def insertOptInt (key : String) (v : Option Int)
    (d : List (String × JValue)) : List (String × JValue) :=
  match v with
  | none => d
  | some n => d ++ [(key, JValue.num n)]

/-- `recipient_list(awarding_agency_id, fiscal_year, limit=None, page=None)`:
GET `/api/v2/award_spending/recipient/`. -/
def recipient_list (awarding_agency_id fiscal_year : Int)
    (limit page : Option Int) : Except ToolError Request := do
  let params := recipient_list_params0 awarding_agency_id fiscal_year
  let params ← insertOptMin1 "limit" "limit must be >= 1." limit params
  let params ← insertOptMin1 "page" "page must be >= 1." page params
  .ok { method := .get, path := "/api/v2/award_spending/recipient/",
        params := params, body := [] }

/-- The body dict literal of `spending_by_award`: the five always-present fields. -/
def spending_by_award_body0 (filters : List (String × JValue)) (fields : List String)
    (order : String) (subawards : Bool) (spending_level : String) :
    List (String × JValue) :=
  [("filters", JValue.obj filters),
   ("fields", JValue.arr (fields.map JValue.str)),
   ("order", JValue.str order),
   ("subawards", JValue.bool subawards),
   ("spending_level", JValue.str spending_level)]

/-- `spending_by_award(filters, fields, limit=None, order="desc", page=None,
sort=None, subawards=False, last_record_unique_id=None,
last_record_sort_value=None, spending_level="awards")`:
POST `/api/v2/search/spending_by_award/`. The `isinstance` guards of the
source are enforced by the argument types here. -/
def spending_by_award (filters : List (String × JValue)) (fields : List String)
    (limit : Option Int) (order : String) (page : Option Int)
    (sort : Option String) (subawards : Bool)
    (last_record_unique_id : Option Int) (last_record_sort_value : Option String)
    (spending_level : String) : Except ToolError Request :=
  if filters.isEmpty then
    .error ⟨"filters must be a non-empty object."⟩
  else if fields.isEmpty then
    .error ⟨"fields must be a non-empty array of strings."⟩
  else if ¬ (order = "asc" ∨ order = "desc") then
    .error ⟨"order must be " ++ sq ++ "asc" ++ sq ++ " or " ++ sq ++ "desc" ++ sq ++ "."⟩
  else if ¬ (spending_level = "awards" ∨ spending_level = "subawards") then
    .error ⟨"spending_level must be " ++ sq ++ "awards" ++ sq ++ " or "
            ++ sq ++ "subawards" ++ sq ++ "."⟩
  else do
    let body := spending_by_award_body0 filters fields order subawards spending_level
    let body ← insertOptMin1 "limit" "limit must be >= 1." limit body
    let body ← insertOptMin1 "page" "page must be >= 1." page body
    let body := insertOptStr "sort" sort body
    let body := insertOptInt "last_record_unique_id" last_record_unique_id body
    let body := insertOptStr "last_record_sort_value" last_record_sort_value body
    .ok { method := .post, path := "/api/v2/search/spending_by_award/",
          params := [], body := body }

/-- `recipient_children(duns_or_uei, year=None)`:
GET `/api/v2/recipient/children/` + `duns_or_uei.strip()` + `/`. -/
def recipient_children (duns_or_uei : String) (year : Option String) :
    Except ToolError Request :=
  if duns_or_uei = "" ∨ pyStrip duns_or_uei = "" then
    .error ⟨"duns_or_uei is required and cannot be empty."⟩
  else
    let params := insertOptStr "year" year []
    let path := "/api/v2/recipient/children/" ++ pyStrip duns_or_uei ++ "/"
    .ok { method := .get, path := path, params := params, body := [] }

/-- An adapter outcome that raised a `ToolError` (and therefore issued no
network request: in the embedding the request is only issued on `.ok`). -/
def raisesToolError {α : Type} : Except ToolError α → Bool
  | .error _ => true
  | .ok _ => false

theorem lookup_append_of_none {β : Type} {k : String} {l1 : List (String × β)}
    (l2 : List (String × β)) (h : l1.lookup k = none) :
    (l1 ++ l2).lookup k = l2.lookup k := by
  induction l1 with
  | nil => rfl
  | cons a t ih =>
    obtain ⟨key, v⟩ := a
    simp only [List.lookup, List.cons_append] at h ⊢
    cases hk : k == key with
    | true => simp [hk] at h
    | false => simp only [hk] at h ⊢; exact ih h

theorem lookup_append_of_some {β : Type} {k : String} {l1 : List (String × β)}
    {v : β} (l2 : List (String × β)) (h : l1.lookup k = some v) :
    (l1 ++ l2).lookup k = some v := by
  induction l1 with
  | nil => simp [List.lookup] at h
  | cons a t ih =>
    obtain ⟨key, w⟩ := a
    simp only [List.lookup, List.cons_append] at h ⊢
    cases hk : k == key with
    | true => simp only [hk] at h ⊢; exact h
    | false => simp only [hk] at h ⊢; exact ih h

theorem lookup_insertOptStr_ne {key : String} {v : Option String}
    {d : List (String × JValue)} {k : String} (h : (k == key) = false) :
    (insertOptStr key v d).lookup k = d.lookup k := by
  cases v with
  | none => rfl
  | some s =>
    cases hd : d.lookup k with
    | some w => exact hd ▸ lookup_append_of_some _ hd
    | none =>
      rw [insertOptStr, lookup_append_of_none _ hd]
      simp [List.lookup, h]

theorem lookup_insertOptInt_ne {key : String} {v : Option Int}
    {d : List (String × JValue)} {k : String} (h : (k == key) = false) :
    (insertOptInt key v d).lookup k = d.lookup k := by
  cases v with
  | none => rfl
  | some n =>
    cases hd : d.lookup k with
    | some w => exact hd ▸ lookup_append_of_some _ hd
    | none =>
      rw [insertOptInt, lookup_append_of_none _ hd]
      simp [List.lookup, h]

theorem insertOptMin1_ok {key errMsg : String} {v : Option Int}
    {d d2 : List (String × JValue)}
    (h : insertOptMin1 key errMsg v d = .ok d2) :
    d2 = d ∨ ∃ n, v = some n ∧ 1 ≤ n ∧ d2 = d ++ [(key, JValue.num n)] := by
  cases v with
  | none => left; cases h; rfl
  | some n =>
    right
    rw [insertOptMin1] at h
    split at h
    · cases h
    · cases h
      exact ⟨n, rfl, by omega, rfl⟩

theorem lookup_insertOptMin1_ok_ne {key errMsg : String} {v : Option Int}
    {d d2 : List (String × JValue)} {k : String}
    (h : insertOptMin1 key errMsg v d = .ok d2) (hk : (k == key) = false) :
    d2.lookup k = d.lookup k := by
  rcases insertOptMin1_ok h with rfl | ⟨n, _, _, rfl⟩
  · rfl
  · cases hd : d.lookup k with
    | some w => exact lookup_append_of_some _ hd
    | none => rw [lookup_append_of_none _ hd]; simp [List.lookup, hk]

/-- C5 counterexample: for status 301 (a 3xx redirect) the error normalizer
raises a ToolError instead of doing nothing: `resp.raise_for_status()` raises
for every non-2xx status, so the claimed 3xx pass-through is false. -/
theorem C5_counterexample :
    raise_for_usaspending
      { status := 301, method := "GET", url := "https://api.usaspending.gov/x",
        jsonResult := none, text := "" } =
    .error ⟨"USAspending API error 301 for GET https://api.usaspending.gov/x."⟩ := by
  rfl

/-- C5 (amended): the error normalizer does nothing exactly on 2xx statuses;
for every status outside 200..299 (including 1xx and 3xx) it raises a
ToolError carrying the normalized message. -/
theorem C5_success_only_2xx (r : PyResponse) :
    (200 ≤ r.status ∧ r.status < 300 → raise_for_usaspending r = .ok ()) ∧
    (¬ (200 ≤ r.status ∧ r.status < 300) →
      raise_for_usaspending r = .error ⟨usaspendingErrorMessage r⟩) := by
  constructor <;> intro h <;> unfold raise_for_usaspending
  · rw [if_pos h]
  · rw [if_neg h]

/-- C5 witness: a 204 response passes through untouched, a 404 response
raises the normalized ToolError. -/
theorem C5_witness :
    raise_for_usaspending
      { status := 204, method := "GET", url := "u", jsonResult := none, text := "" } = .ok () ∧
    raise_for_usaspending
      { status := 404, method := "GET", url := "u", jsonResult := none, text := "" } =
      .error ⟨usaspendingErrorMessage
        { status := 404, method := "GET", url := "u", jsonResult := none, text := "" }⟩ :=
  ⟨(C5_success_only_2xx _).1 (by decide), (C5_success_only_2xx _).2 (by decide)⟩

/-- C7: recipient_children interpolates the whitespace-trimmed duns_or_uei
("  001006360  " yields path /api/v2/recipient/children/001006360/), and the
optional year is never validated locally: for every year value whatsoever the
call succeeds and the value is passed through as the year query parameter
as-is, while an absent year leaves the query parameters empty. -/
theorem C7_children_trims_id_and_passes_year (y : Option String) :
    recipient_children "  001006360  " y =
      .ok { method := .get, path := "/api/v2/recipient/children/001006360/",
            params := match y with
              | some s => [("year", JValue.str s)]
              | none => [],
            body := [] } := by
  cases y <;> rfl

/-- C2: recipient_autocomplete with limit outside [1,500] or an empty
search_text raises a ToolError, issuing zero network requests (the error is
raised before the request value is ever constructed). -/
theorem C2_invalid_args_block_request (s : String) (limit : Int)
    (levels : Option (List String))
    (h : s = "" ∨ limit < 1 ∨ 500 < limit) :
    raisesToolError (recipient_autocomplete s limit levels) = true := by
  rw [recipient_autocomplete]
  split
  · rfl
  · split
    · rfl
    · split
      · rfl
      · rename_i h1 h2 h3
        rcases h with hs | hl | hl
        · exact absurd (Or.inl hs) h1
        · exact absurd hl h2
        · exact absurd hl h3

/-- C2 witness: empty search_text, limit 0 and limit 501 each raise. -/
theorem C2_witness :
    raisesToolError (recipient_autocomplete "" 10 none) = true ∧
    raisesToolError (recipient_autocomplete "Boeing" 0 none) = true ∧
    raisesToolError (recipient_autocomplete "Boeing" 501 none) = true :=
  ⟨C2_invalid_args_block_request "" 10 none (Or.inl rfl),
   C2_invalid_args_block_request "Boeing" 0 none (Or.inr (Or.inl (by decide))),
   C2_invalid_args_block_request "Boeing" 501 none (Or.inr (Or.inr (by decide)))⟩

/-- Concrete body for the C6 counterexample: a leading space followed by 501
copies of the letter a (502 characters, non-empty, not JSON). -/
def c6body : String := String.mk (Char.ofNat 32 :: List.replicate 501 'a')

/-- C1 counterexample: for a failed response whose body is unparseable text
with a leading space (text " x"), the code strips the text before truncating,
so the produced detail " Response: x" is not the claimed raw-text detail
" Response:  x". -/
theorem C1_counterexample :
    raise_for_usaspending
      { status := 404, method := "GET", url := "u", jsonResult := none, text := " x" } =
      .error ⟨"USAspending API error 404 for GET u. Response: x"⟩ ∧
    "USAspending API error 404 for GET u. Response: x" ≠
      "USAspending API error 404 for GET u." ++ " Response: " ++ pySlice " x" 500 :=
  ⟨rfl, by decide⟩

/-- C1 (amended): every failed upstream response raises a ToolError whose
message is "USAspending API error <status> for <method> <url>." followed by
" Response: <detail>" where <detail> is the JSON-parsed body when the parse
succeeds and the payload is truthy (non-empty), is omitted when the parse
succeeds with a falsy payload, and on parse failure is the whitespace-stripped
text body truncated to 500 characters when that stripped text is non-empty,
else omitted; detail extraction is a total function. -/
theorem C1_error_message_format (r : PyResponse)
    (h : ¬ (200 ≤ r.status ∧ r.status < 300)) :
    raise_for_usaspending r = .error ⟨"USAspending API error " ++ toString r.status
      ++ " for " ++ r.method ++ " " ++ r.url ++ "." ++
      (match r.jsonResult with
       | some payload =>
           if payload.truthy then " Response: " ++ pyStr payload else ""
       | none =>
           if pyStrip r.text = "" then ""
           else " Response: " ++ pySlice (pyStrip r.text) 500)⟩ := by
  obtain ⟨st, m, u, j, t⟩ := r
  unfold raise_for_usaspending
  rw [if_neg h]
  cases j <;> rfl

/-- C1 witness: a 404 response with JSON body yields the normalized message
carrying the rendered payload. -/
theorem C1_witness :
    raise_for_usaspending
      { status := 404, method := "GET", url := "https://api.usaspending.gov/a",
        jsonResult := some (.obj [("detail", .str "not found")]), text := "" } =
      .error ⟨"USAspending API error 404 for GET https://api.usaspending.gov/a. Response: \x7b"
        ++ sq ++ "detail" ++ sq ++ ": " ++ sq ++ "not found" ++ sq ++ "\x7d"⟩ :=
  C1_error_message_format _ (by decide)

set_option maxRecDepth 100000 in
/-- C6 counterexample: a 502-character non-JSON body with a leading space is
longer than 500 characters and non-empty, yet the appended detail is the first
500 characters of the stripped body (501 letters a truncated to 500), not the
first 500 characters of the body itself (which would start with the space). -/
theorem C6_counterexample :
    500 < c6body.length ∧
    usaspendingDetail
      { status := 500, method := "POST", url := "u", jsonResult := none, text := c6body } =
      " Response: " ++ String.mk (List.replicate 500 'a') ∧
    " Response: " ++ String.mk (List.replicate 500 'a') ≠
      " Response: " ++ pySlice c6body 500 :=
  ⟨by decide, by decide, by decide⟩

/-- C6 (amended): for every response with status 500 whose body is not
parseable as JSON and whose whitespace-stripped text is longer than 500
characters, the appended detail is exactly the first 500 characters of the
stripped text. -/
theorem C6_detail_first500_of_stripped (r : PyResponse)
    (_h500 : r.status = 500) (hj : r.jsonResult = none)
    (hl : 500 < (pyStrip r.text).length) :
    usaspendingDetail r = " Response: " ++ pySlice (pyStrip r.text) 500 := by
  have hne : pyStrip r.text ≠ "" := fun he => absurd (he ▸ hl) (by decide)
  unfold usaspendingDetail
  rw [hj]
  exact if_neg hne

set_option maxRecDepth 100000 in
/-- C6 witness: a 501-character body of letters a. -/
theorem C6_witness :
    500 < (pyStrip (String.mk (List.replicate 501 'a'))).length ∧
    usaspendingDetail
      { status := 500, method := "POST", url := "u", jsonResult := none,
        text := String.mk (List.replicate 501 'a') } =
      " Response: " ++ pySlice (pyStrip (String.mk (List.replicate 501 'a'))) 500 :=
  ⟨by decide, C6_detail_first500_of_stripped _ rfl rfl (by decide)⟩

/-- Number of slash characters in a string. -/
def slashCount (s : String) : Nat := s.data.count (Char.ofNat 47)

/-- C9: recipient_autocomplete rejects whitespace-only search_text (stricter
than plain non-emptiness), yet an accepted search_text is forwarded untrimmed
in the JSON body, unlike recipient_children, which forwards the trimmed
identifier in its request path. -/
theorem C9_whitespace_reject_untrimmed_forward (s : String) :
    (pyStrip s = "" →
      ∀ limit levels, raisesToolError (recipient_autocomplete s limit levels) = true) ∧
    (∀ limit levels req, recipient_autocomplete s limit levels = .ok req →
      req.body.lookup "search_text" = some (.str s)) ∧
    (∀ y req, recipient_children s y = .ok req →
      req.path = "/api/v2/recipient/children/" ++ pyStrip s ++ "/") := by
  refine ⟨fun h limit levels => ?_, fun limit levels req h => ?_, fun y req h => ?_⟩
  · rw [recipient_autocomplete, if_pos (Or.inr h)]
    rfl
  · rw [recipient_autocomplete] at h
    split at h
    · exact Except.noConfusion h
    · split at h
      · exact Except.noConfusion h
      · split at h
        · exact Except.noConfusion h
        · cases levels <;> cases h <;> rfl
  · rw [recipient_children] at h
    split at h
    · exact Except.noConfusion h
    · cases h
      rfl

/-- C9 witness: the whitespace-only search_text " " (non-empty as a string) is
rejected; the accepted search_text " x " is forwarded untrimmed; the id
"  066909518  " yields the trimmed path. -/
theorem C9_witness :
    pyStrip " " = "" ∧ (" " : String) ≠ "" ∧
    raisesToolError (recipient_autocomplete " " 10 none) = true ∧
    List.lookup "search_text"
      [("search_text", JValue.str " x "), ("limit", JValue.num 10)] =
      some (JValue.str " x ") ∧
    ("/api/v2/recipient/children/066909518/" : String) =
      "/api/v2/recipient/children/" ++ pyStrip "  066909518  " ++ "/" :=
  ⟨by decide, by decide,
   (C9_whitespace_reject_untrimmed_forward " ").1 (by decide) 10 none,
   (C9_whitespace_reject_untrimmed_forward " x ").2.1 10 none
     { method := .post, path := "/api/v2/autocomplete/recipient/", params := [],
       body := [("search_text", JValue.str " x "), ("limit", JValue.num 10)] } rfl,
   ((C9_whitespace_reject_untrimmed_forward "  066909518  ").2.2 none
     { method := .get, path := "/api/v2/recipient/children/066909518/",
       params := [], body := [] } rfl)⟩

/-- C10: recipient_children interpolates the trimmed identifier into the path
with no escaping: every accepted identifier yields exactly the concatenation
/api/v2/recipient/children/ + trimmed id + /; a slash-free identifier gives a
path with exactly 6 slashes, while the identifier "066909518/P" (containing a
path-significant slash) gives a path with 7 slashes, hence a path outside the
children endpoint pattern. -/
theorem C10_no_escaping_in_path :
    (∀ d y req, recipient_children d y = .ok req →
      req.path = "/api/v2/recipient/children/" ++ pyStrip d ++ "/") ∧
    (∀ id, Char.ofNat 47 ∉ id.data →
      slashCount ("/api/v2/recipient/children/" ++ id ++ "/") = 6) ∧
    (∀ req, recipient_children "066909518/P" none = .ok req →
      slashCount req.path = 7) := by
  refine ⟨fun d y req h => ?_, fun id hid => ?_, fun req h => ?_⟩
  · rw [recipient_children] at h
    split at h
    · exact Except.noConfusion h
    · cases h
      rfl
  · rw [slashCount, String.data_append, String.data_append,
      List.count_append, List.count_append, List.count_eq_zero.mpr hid]
    decide
  · rw [recipient_children] at h
    split at h
    · exact Except.noConfusion h
    · cases h
      decide

/-- C10 witness: the slash-free identifier 001006360 gives the 6-slash path,
and the accepted identifier 066909518/P gives a 7-slash path. -/
theorem C10_witness :
    slashCount ("/api/v2/recipient/children/" ++ "001006360" ++ "/") = 6 ∧
    slashCount "/api/v2/recipient/children/066909518/P/" = 7 ∧
    recipient_children "066909518/P" none =
      .ok { method := .get, path := "/api/v2/recipient/children/066909518/P/",
            params := [], body := [] } :=
  ⟨(C10_no_escaping_in_path.2.1 "001006360") (by decide),
   (C10_no_escaping_in_path.2.2
     { method := .get, path := "/api/v2/recipient/children/066909518/P/",
       params := [], body := [] } rfl),
   rfl⟩

theorem exceptBind_ok {ε α β : Type} {x : Except ε α} {f : α → Except ε β} {b : β}
    (h : x >>= f = .ok b) : ∃ a, x = .ok a ∧ f a = .ok b := by
  cases x with
  | error e => exact Except.noConfusion h
  | ok a => exact ⟨a, rfl, h⟩

theorem insertOptMin1_none_ok {key errMsg : String} {d d2 : List (String × JValue)}
    (h : insertOptMin1 key errMsg none d = .ok d2) : d2 = d :=
  (Except.ok.inj h).symm


/-- Body of the concrete spending_by_award request of the C3 witness: every
optional argument unset. -/
def c3body : List (String × JValue) :=
  [("filters", JValue.obj [("naics", JValue.str "33")]),
   ("fields", JValue.arr [JValue.str "Award ID"]),
   ("order", JValue.str "desc"),
   ("subawards", JValue.bool false),
   ("spending_level", JValue.str "awards")]

/-- The concrete spending_by_award request of the C3 witness. -/
def c3req : Request :=
  { method := .post, path := "/api/v2/search/spending_by_award/",
    params := [], body := c3body }

/-- C3: in every adapter, an optional argument left unset yields no key at all
in the constructed query parameters or JSON body. -/
theorem C3_unset_optionals_absent :
    (∀ s l req, recipient_autocomplete s l none = .ok req →
      req.body.lookup "recipient_levels" = none) ∧
    (∀ a f p req, recipient_list a f none p = .ok req →
      req.params.lookup "limit" = none) ∧
    (∀ a f l req, recipient_list a f l none = .ok req →
      req.params.lookup "page" = none) ∧
    (∀ fi fe o p so sub lui lsv sl req,
      spending_by_award fi fe none o p so sub lui lsv sl = .ok req →
      req.body.lookup "limit" = none) ∧
    (∀ fi fe l o so sub lui lsv sl req,
      spending_by_award fi fe l o none so sub lui lsv sl = .ok req →
      req.body.lookup "page" = none) ∧
    (∀ fi fe l o p sub lui lsv sl req,
      spending_by_award fi fe l o p none sub lui lsv sl = .ok req →
      req.body.lookup "sort" = none) ∧
    (∀ fi fe l o p so sub lsv sl req,
      spending_by_award fi fe l o p so sub none lsv sl = .ok req →
      req.body.lookup "last_record_unique_id" = none) ∧
    (∀ fi fe l o p so sub lui sl req,
      spending_by_award fi fe l o p so sub lui none sl = .ok req →
      req.body.lookup "last_record_sort_value" = none) ∧
    (∀ d req, recipient_children d none = .ok req →
      req.params.lookup "year" = none) := by
  refine ⟨fun s l req h => ?_, fun a f p req h => ?_, fun a f l req h => ?_,
    fun fi fe o p so sub lui lsv sl req h => ?_,
    fun fi fe l o so sub lui lsv sl req h => ?_,
    fun fi fe l o p sub lui lsv sl req h => ?_,
    fun fi fe l o p so sub lsv sl req h => ?_,
    fun fi fe l o p so sub lui sl req h => ?_,
    fun d req h => ?_⟩
  · rw [recipient_autocomplete] at h
    split at h
    · exact Except.noConfusion h
    · split at h
      · exact Except.noConfusion h
      · split at h
        · exact Except.noConfusion h
        · cases h
          rfl
  · rw [recipient_list] at h
    obtain ⟨b1, hb1, h⟩ := exceptBind_ok h
    obtain ⟨b2, hb2, h⟩ := exceptBind_ok h
    cases h
    show b2.lookup "limit" = none
    rw [lookup_insertOptMin1_ok_ne hb2 (by decide)]
    rw [insertOptMin1_none_ok hb1]
    rfl
  · rw [recipient_list] at h
    obtain ⟨b1, hb1, h⟩ := exceptBind_ok h
    obtain ⟨b2, hb2, h⟩ := exceptBind_ok h
    cases h
    show b2.lookup "page" = none
    rw [insertOptMin1_none_ok hb2]
    rw [lookup_insertOptMin1_ok_ne hb1 (by decide)]
    rfl
  · rw [spending_by_award] at h
    split at h
    · exact Except.noConfusion h
    · split at h
      · exact Except.noConfusion h
      · split at h
        · exact Except.noConfusion h
        · split at h
          · exact Except.noConfusion h
          · obtain ⟨b1, hb1, h⟩ := exceptBind_ok h
            obtain ⟨b2, hb2, h⟩ := exceptBind_ok h
            cases h
            show (insertOptStr "last_record_sort_value" lsv
              (insertOptInt "last_record_unique_id" lui
                (insertOptStr "sort" so b2))).lookup "limit" = none
            rw [lookup_insertOptStr_ne (by decide), lookup_insertOptInt_ne (by decide),
              lookup_insertOptStr_ne (by decide),
              lookup_insertOptMin1_ok_ne hb2 (by decide), insertOptMin1_none_ok hb1]
            rfl
  · rw [spending_by_award] at h
    split at h
    · exact Except.noConfusion h
    · split at h
      · exact Except.noConfusion h
      · split at h
        · exact Except.noConfusion h
        · split at h
          · exact Except.noConfusion h
          · obtain ⟨b1, hb1, h⟩ := exceptBind_ok h
            obtain ⟨b2, hb2, h⟩ := exceptBind_ok h
            cases h
            show (insertOptStr "last_record_sort_value" lsv
              (insertOptInt "last_record_unique_id" lui
                (insertOptStr "sort" so b2))).lookup "page" = none
            rw [lookup_insertOptStr_ne (by decide), lookup_insertOptInt_ne (by decide),
              lookup_insertOptStr_ne (by decide), insertOptMin1_none_ok hb2,
              lookup_insertOptMin1_ok_ne hb1 (by decide)]
            rfl
  · rw [spending_by_award] at h
    split at h
    · exact Except.noConfusion h
    · split at h
      · exact Except.noConfusion h
      · split at h
        · exact Except.noConfusion h
        · split at h
          · exact Except.noConfusion h
          · obtain ⟨b1, hb1, h⟩ := exceptBind_ok h
            obtain ⟨b2, hb2, h⟩ := exceptBind_ok h
            cases h
            show (insertOptStr "last_record_sort_value" lsv
              (insertOptInt "last_record_unique_id" lui
                (insertOptStr "sort" none b2))).lookup "sort" = none
            rw [lookup_insertOptStr_ne (by decide), lookup_insertOptInt_ne (by decide)]
            show b2.lookup "sort" = none
            rw [lookup_insertOptMin1_ok_ne hb2 (by decide),
              lookup_insertOptMin1_ok_ne hb1 (by decide)]
            rfl
  · rw [spending_by_award] at h
    split at h
    · exact Except.noConfusion h
    · split at h
      · exact Except.noConfusion h
      · split at h
        · exact Except.noConfusion h
        · split at h
          · exact Except.noConfusion h
          · obtain ⟨b1, hb1, h⟩ := exceptBind_ok h
            obtain ⟨b2, hb2, h⟩ := exceptBind_ok h
            cases h
            show (insertOptStr "last_record_sort_value" lsv
              (insertOptInt "last_record_unique_id" none
                (insertOptStr "sort" so b2))).lookup "last_record_unique_id" = none
            rw [lookup_insertOptStr_ne (by decide)]
            show (insertOptStr "sort" so b2).lookup "last_record_unique_id" = none
            rw [lookup_insertOptStr_ne (by decide),
              lookup_insertOptMin1_ok_ne hb2 (by decide),
              lookup_insertOptMin1_ok_ne hb1 (by decide)]
            rfl
  · rw [spending_by_award] at h
    split at h
    · exact Except.noConfusion h
    · split at h
      · exact Except.noConfusion h
      · split at h
        · exact Except.noConfusion h
        · split at h
          · exact Except.noConfusion h
          · obtain ⟨b1, hb1, h⟩ := exceptBind_ok h
            obtain ⟨b2, hb2, h⟩ := exceptBind_ok h
            cases h
            show (insertOptInt "last_record_unique_id" lui
              (insertOptStr "sort" so b2)).lookup "last_record_sort_value" = none
            rw [lookup_insertOptInt_ne (by decide), lookup_insertOptStr_ne (by decide),
              lookup_insertOptMin1_ok_ne hb2 (by decide),
              lookup_insertOptMin1_ok_ne hb1 (by decide)]
            rfl
  · rw [recipient_children] at h
    split at h
    · exact Except.noConfusion h
    · cases h
      rfl

/-- C3 witness: concrete calls with unset optionals; each constructed request
lacks the corresponding key. -/
theorem C3_witness :
    List.lookup "recipient_levels"
      [("search_text", JValue.str "Boeing"), ("limit", JValue.num 10)] = none ∧
    List.lookup "limit"
      [("awarding_agency_id", JValue.num 183), ("fiscal_year", JValue.num 2017)] = none ∧
    List.lookup "page"
      [("awarding_agency_id", JValue.num 183), ("fiscal_year", JValue.num 2017)] = none ∧
    List.lookup "limit" c3body = none ∧
    List.lookup "page" c3body = none ∧
    List.lookup "sort" c3body = none ∧
    List.lookup "last_record_unique_id" c3body = none ∧
    List.lookup "last_record_sort_value" c3body = none ∧
    List.lookup "year" ([] : List (String × JValue)) = none :=
  ⟨C3_unset_optionals_absent.1 "Boeing" 10
      { method := .post, path := "/api/v2/autocomplete/recipient/", params := [],
        body := [("search_text", JValue.str "Boeing"), ("limit", JValue.num 10)] } rfl,
   C3_unset_optionals_absent.2.1 183 2017 none
      { method := .get, path := "/api/v2/award_spending/recipient/",
        params := [("awarding_agency_id", JValue.num 183),
                   ("fiscal_year", JValue.num 2017)], body := [] } rfl,
   C3_unset_optionals_absent.2.2.1 183 2017 none
      { method := .get, path := "/api/v2/award_spending/recipient/",
        params := [("awarding_agency_id", JValue.num 183),
                   ("fiscal_year", JValue.num 2017)], body := [] } rfl,
   C3_unset_optionals_absent.2.2.2.1 [("naics", JValue.str "33")] ["Award ID"]
      "desc" none none false none none "awards" c3req rfl,
   C3_unset_optionals_absent.2.2.2.2.1 [("naics", JValue.str "33")] ["Award ID"]
      none "desc" none false none none "awards" c3req rfl,
   C3_unset_optionals_absent.2.2.2.2.2.1 [("naics", JValue.str "33")] ["Award ID"]
      none "desc" none false none none "awards" c3req rfl,
   C3_unset_optionals_absent.2.2.2.2.2.2.1 [("naics", JValue.str "33")] ["Award ID"]
      none "desc" none none false none "awards" c3req rfl,
   C3_unset_optionals_absent.2.2.2.2.2.2.2.1 [("naics", JValue.str "33")] ["Award ID"]
      none "desc" none none false none "awards" c3req rfl,
   C3_unset_optionals_absent.2.2.2.2.2.2.2.2 "001006360"
      { method := .get, path := "/api/v2/recipient/children/001006360/",
        params := [], body := [] } rfl⟩

theorem insertOptMin1_some_ok {key errMsg : String} {n : Int}
    {d d2 : List (String × JValue)}
    (h : insertOptMin1 key errMsg (some n) d = .ok d2) :
    1 ≤ n ∧ d2 = d ++ [(key, JValue.num n)] := by
  rw [insertOptMin1] at h
  split at h
  · exact Except.noConfusion h
  · exact ⟨by omega, (Except.ok.inj h).symm⟩

/-- C4: spending_by_award validates filters non-empty, then fields non-empty,
then order in the enum, then spending_level in the enum, then limit >= 1, then
page >= 1, raising the corresponding ToolError at the first failing check and
before any network dispatch; order and spending_level violations each raise
independently; a successful call always carries filters, fields, order,
subawards and spending_level in the JSON body. -/
theorem C4_validation_order (fi : List (String × JValue)) (fe : List String)
    (l : Option Int) (o : String) (p : Option Int) (so : Option String)
    (sub : Bool) (lui : Option Int) (lsv : Option String) (sl : String) :
    (fi = [] → spending_by_award fi fe l o p so sub lui lsv sl =
      .error ⟨"filters must be a non-empty object."⟩) ∧
    (fi ≠ [] → fe = [] → spending_by_award fi fe l o p so sub lui lsv sl =
      .error ⟨"fields must be a non-empty array of strings."⟩) ∧
    (fi ≠ [] → fe ≠ [] → ¬ (o = "asc" ∨ o = "desc") →
      spending_by_award fi fe l o p so sub lui lsv sl =
      .error ⟨"order must be " ++ sq ++ "asc" ++ sq ++ " or "
              ++ sq ++ "desc" ++ sq ++ "."⟩) ∧
    (fi ≠ [] → fe ≠ [] → (o = "asc" ∨ o = "desc") →
      ¬ (sl = "awards" ∨ sl = "subawards") →
      spending_by_award fi fe l o p so sub lui lsv sl =
      .error ⟨"spending_level must be " ++ sq ++ "awards" ++ sq ++ " or "
              ++ sq ++ "subawards" ++ sq ++ "."⟩) ∧
    (∀ n, fi ≠ [] → fe ≠ [] → (o = "asc" ∨ o = "desc") →
      (sl = "awards" ∨ sl = "subawards") → l = some n → n < 1 →
      spending_by_award fi fe l o p so sub lui lsv sl =
      .error ⟨"limit must be >= 1."⟩) ∧
    (∀ n, fi ≠ [] → fe ≠ [] → (o = "asc" ∨ o = "desc") →
      (sl = "awards" ∨ sl = "subawards") → (∀ m, l = some m → 1 ≤ m) →
      p = some n → n < 1 →
      spending_by_award fi fe l o p so sub lui lsv sl =
      .error ⟨"page must be >= 1."⟩) ∧
    (∀ req, spending_by_award fi fe l o p so sub lui lsv sl = .ok req →
      req.body.lookup "filters" = some (.obj fi) ∧
      req.body.lookup "fields" = some (.arr (fe.map JValue.str)) ∧
      req.body.lookup "order" = some (.str o) ∧
      req.body.lookup "subawards" = some (.bool sub) ∧
      req.body.lookup "spending_level" = some (.str sl)) := by
  refine ⟨fun h => ?_, fun h1 h2 => ?_, fun h1 h2 h3 => ?_, fun h1 h2 h3 h4 => ?_,
    fun n h1 h2 h3 h4 hl hn => ?_, fun n h1 h2 h3 h4 hlim hp hn => ?_,
    fun req h => ?_⟩
  · subst h
    rfl
  · subst h2
    obtain ⟨x, xs, rfl⟩ := List.exists_cons_of_ne_nil h1
    rfl
  · obtain ⟨x, xs, rfl⟩ := List.exists_cons_of_ne_nil h1
    obtain ⟨y, ys, rfl⟩ := List.exists_cons_of_ne_nil h2
    simp [spending_by_award, h3]
  · obtain ⟨x, xs, rfl⟩ := List.exists_cons_of_ne_nil h1
    obtain ⟨y, ys, rfl⟩ := List.exists_cons_of_ne_nil h2
    rcases h3 with rfl | rfl <;> simp [spending_by_award, h4]
  · obtain ⟨x, xs, rfl⟩ := List.exists_cons_of_ne_nil h1
    obtain ⟨y, ys, rfl⟩ := List.exists_cons_of_ne_nil h2
    subst hl
    rcases h3 with rfl | rfl <;> rcases h4 with rfl | rfl <;>
      simp only [spending_by_award, insertOptMin1, List.isEmpty_cons, hn, if_true,
        Bool.false_eq_true, if_false, reduceIte] <;> rfl
  · obtain ⟨x, xs, rfl⟩ := List.exists_cons_of_ne_nil h1
    obtain ⟨y, ys, rfl⟩ := List.exists_cons_of_ne_nil h2
    subst hp
    rcases l with _ | m
    · rcases h3 with rfl | rfl <;> rcases h4 with rfl | rfl <;>
        simp only [spending_by_award, insertOptMin1, hn, reduceIte, if_true] <;> rfl
    · have hm : ¬ m < 1 := by have := hlim m rfl; omega
      rcases h3 with rfl | rfl <;> rcases h4 with rfl | rfl <;>
        simp only [spending_by_award, insertOptMin1, hm, hn, reduceIte, if_true,
          if_false] <;> rfl
  · rw [spending_by_award] at h
    split at h
    · exact Except.noConfusion h
    · split at h
      · exact Except.noConfusion h
      · split at h
        · exact Except.noConfusion h
        · split at h
          · exact Except.noConfusion h
          · obtain ⟨b1, hb1, h⟩ := exceptBind_ok h
            obtain ⟨b2, hb2, h⟩ := exceptBind_ok h
            cases h
            refine ⟨?_, ?_, ?_, ?_, ?_⟩ <;>
              (show (insertOptStr "last_record_sort_value" lsv
                (insertOptInt "last_record_unique_id" lui
                  (insertOptStr "sort" so b2))).lookup _ = _) <;>
              rw [lookup_insertOptStr_ne (by decide), lookup_insertOptInt_ne (by decide),
                lookup_insertOptStr_ne (by decide),
                lookup_insertOptMin1_ok_ne hb2 (by decide),
                lookup_insertOptMin1_ok_ne hb1 (by decide)] <;> rfl

/-- C4 witness: each validation fires at a concrete input in order, and a
concrete successful call carries the five required body keys. -/
theorem C4_witness :
    spending_by_award [] ["f"] none "desc" none none false none none "awards" =
      .error ⟨"filters must be a non-empty object."⟩ ∧
    spending_by_award [("k", JValue.str "v")] [] none "desc" none none false none none
      "awards" = .error ⟨"fields must be a non-empty array of strings."⟩ ∧
    spending_by_award [("k", JValue.str "v")] ["f"] none "up" none none false none none
      "awards" = .error ⟨"order must be " ++ sq ++ "asc" ++ sq ++ " or "
        ++ sq ++ "desc" ++ sq ++ "."⟩ ∧
    spending_by_award [("k", JValue.str "v")] ["f"] none "asc" none none false none none
      "totals" = .error ⟨"spending_level must be " ++ sq ++ "awards" ++ sq ++ " or "
        ++ sq ++ "subawards" ++ sq ++ "."⟩ ∧
    spending_by_award [("k", JValue.str "v")] ["f"] (some 0) "asc" (some 0) none false
      none none "awards" = .error ⟨"limit must be >= 1."⟩ ∧
    spending_by_award [("k", JValue.str "v")] ["f"] (some 5) "asc" (some 0) none false
      none none "awards" = .error ⟨"page must be >= 1."⟩ ∧
    List.lookup "filters" c3body = some (.obj [("naics", JValue.str "33")]) ∧
    List.lookup "fields" c3body = some (.arr [JValue.str "Award ID"]) ∧
    List.lookup "order" c3body = some (.str "desc") ∧
    List.lookup "subawards" c3body = some (.bool false) ∧
    List.lookup "spending_level" c3body = some (.str "awards") := by
  refine ⟨(C4_validation_order [] ["f"] none "desc" none none false none none
      "awards").1 rfl,
    (C4_validation_order [("k", JValue.str "v")] [] none "desc" none none false none
      none "awards").2.1 (List.cons_ne_nil _ _) rfl,
    (C4_validation_order [("k", JValue.str "v")] ["f"] none "up" none none false none
      none "awards").2.2.1 (List.cons_ne_nil _ _) (List.cons_ne_nil _ _) (by decide),
    (C4_validation_order [("k", JValue.str "v")] ["f"] none "asc" none none false none
      none "totals").2.2.2.1 (List.cons_ne_nil _ _) (List.cons_ne_nil _ _)
      (Or.inl rfl) (by decide),
    (C4_validation_order [("k", JValue.str "v")] ["f"] (some 0) "asc" (some 0) none
      false none none "awards").2.2.2.2.1 0 (List.cons_ne_nil _ _)
      (List.cons_ne_nil _ _) (Or.inl rfl) (Or.inl rfl) rfl (by decide),
    (C4_validation_order [("k", JValue.str "v")] ["f"] (some 5) "asc" (some 0) none
      false none none "awards").2.2.2.2.2.1 0 (List.cons_ne_nil _ _)
      (List.cons_ne_nil _ _) (Or.inl rfl) (Or.inl rfl)
      (fun m hm => by cases hm; decide) rfl (by decide), ?_, ?_, ?_, ?_, ?_⟩ <;>
    have h5 := (C4_validation_order [("naics", JValue.str "33")] ["Award ID"] none
      "desc" none none false none none "awards").2.2.2.2.2.2 c3req rfl
  · exact h5.1
  · exact h5.2.1
  · exact h5.2.2.1
  · exact h5.2.2.2.1
  · exact h5.2.2.2.2

/-- Query parameters of the concrete recipient_list call of the C8 witness. -/
def c8params : List (String × JValue) :=
  [("awarding_agency_id", JValue.num 183), ("fiscal_year", JValue.num 2017),
   ("limit", JValue.num 5), ("page", JValue.num 1)]

/-- The concrete recipient_list request of the C8 witness. -/
def c8req : Request :=
  { method := .get, path := "/api/v2/award_spending/recipient/",
    params := c8params, body := [] }

/-- C8: recipient_list always carries awarding_agency_id and fiscal_year in
the query parameters; limit and page are validated (>= 1) and inserted
per-field in sequence: an invalid limit raises its ToolError regardless of
page, an invalid page raises its ToolError when the limit is absent or valid,
at a point where a provided limit has already been inserted into the
parameters (and no request has been issued); provided valid values appear in
the parameters of the issued request. -/
theorem C8_recipient_list_interleaved (a f : Int) (l p : Option Int) :
    (∀ req, recipient_list a f l p = .ok req →
      req.params.lookup "awarding_agency_id" = some (.num a) ∧
      req.params.lookup "fiscal_year" = some (.num f)) ∧
    (∀ n, l = some n → n < 1 →
      recipient_list a f l p = .error ⟨"limit must be >= 1."⟩) ∧
    (∀ n, (∀ m, l = some m → 1 ≤ m) → p = some n → n < 1 →
      recipient_list a f l p = .error ⟨"page must be >= 1."⟩) ∧
    (∀ n, l = some n → 1 ≤ n →
      insertOptMin1 "limit" "limit must be >= 1." l (recipient_list_params0 a f) =
        .ok (recipient_list_params0 a f ++ [("limit", JValue.num n)])) ∧
    (∀ n req, l = some n → recipient_list a f l p = .ok req →
      req.params.lookup "limit" = some (.num n)) ∧
    (∀ n req, p = some n → recipient_list a f l p = .ok req →
      req.params.lookup "page" = some (.num n)) := by
  refine ⟨fun req h => ?_, fun n hl hn => ?_, fun n hlim hp hn => ?_,
    fun n hl hn => ?_, fun n req hl h => ?_, fun n req hp h => ?_⟩
  · rw [recipient_list] at h
    obtain ⟨b1, hb1, h⟩ := exceptBind_ok h
    obtain ⟨b2, hb2, h⟩ := exceptBind_ok h
    cases h
    show b2.lookup "awarding_agency_id" = _ ∧ b2.lookup "fiscal_year" = _
    rw [lookup_insertOptMin1_ok_ne hb2 (by decide),
      lookup_insertOptMin1_ok_ne hb1 (by decide),
      lookup_insertOptMin1_ok_ne hb2 (by decide),
      lookup_insertOptMin1_ok_ne hb1 (by decide)]
    exact ⟨rfl, rfl⟩
  · subst hl
    simp only [recipient_list, insertOptMin1, hn, reduceIte, if_true]
    rfl
  · subst hp
    rcases l with _ | m
    · simp only [recipient_list, insertOptMin1, hn, reduceIte, if_true]
      rfl
    · have hm : ¬ m < 1 := by have := hlim m rfl; omega
      simp only [recipient_list, insertOptMin1, hm, hn, reduceIte, if_true, if_false]
      rfl
  · subst hl
    rw [insertOptMin1, if_neg (by omega)]
  · subst hl
    rw [recipient_list] at h
    obtain ⟨b1, hb1, h⟩ := exceptBind_ok h
    obtain ⟨b2, hb2, h⟩ := exceptBind_ok h
    cases h
    show b2.lookup "limit" = _
    obtain ⟨-, rfl⟩ := insertOptMin1_some_ok hb1
    rw [lookup_insertOptMin1_ok_ne hb2 (by decide),
      lookup_append_of_none _ (by rfl)]
    rfl
  · subst hp
    rw [recipient_list] at h
    obtain ⟨b1, hb1, h⟩ := exceptBind_ok h
    obtain ⟨b2, hb2, h⟩ := exceptBind_ok h
    cases h
    show b2.lookup "page" = _
    obtain ⟨-, rfl⟩ := insertOptMin1_some_ok hb2
    have hb1p : b1.lookup "page" = none := by
      rw [lookup_insertOptMin1_ok_ne hb1 (by decide)]
      rfl
    rw [lookup_append_of_none _ hb1p]
    rfl

/-- C8 witness: concrete calls exercising the interleaved validation. -/
theorem C8_witness :
    (List.lookup "awarding_agency_id" c8params = some (JValue.num 183) ∧
      List.lookup "fiscal_year" c8params = some (JValue.num 2017)) ∧
    recipient_list 183 2017 (some 0) (some 0) = .error ⟨"limit must be >= 1."⟩ ∧
    recipient_list 183 2017 (some 5) (some 0) = .error ⟨"page must be >= 1."⟩ ∧
    insertOptMin1 "limit" "limit must be >= 1." (some 5)
      (recipient_list_params0 183 2017) =
      .ok (recipient_list_params0 183 2017 ++ [("limit", JValue.num 5)]) ∧
    List.lookup "limit" c8params = some (JValue.num 5) ∧
    List.lookup "page" c8params = some (JValue.num 1) :=
  ⟨(C8_recipient_list_interleaved 183 2017 (some 5) (some 1)).1 c8req rfl,
   (C8_recipient_list_interleaved 183 2017 (some 0) (some 0)).2.1 0 rfl (by decide),
   (C8_recipient_list_interleaved 183 2017 (some 5) (some 0)).2.2.1 0
     (fun m hm => by cases hm; decide) rfl (by decide),
   (C8_recipient_list_interleaved 183 2017 (some 5) (some 1)).2.2.2.1 5 rfl
     (by decide),
   (C8_recipient_list_interleaved 183 2017 (some 5) (some 1)).2.2.2.2.1 5 c8req
     rfl rfl,
   (C8_recipient_list_interleaved 183 2017 (some 5) (some 1)).2.2.2.2.2 1 c8req
     rfl rfl⟩

end USASpending
